import Mathlib

/-!
Shallow embedding of `appbase/publishers.py`: a thin Flask adapter that
exposes Python callables as HTTP endpoints, adding session-based
authorization (`protected`), database transaction wrapping
(`dbtransaction`), request decoding / error shaping (`flaskapi`), CORS
headers, and URL registration (`add_url_rule`, `RESTPublisher.map_resource`,
`HTTPPublisher.add_mapping`).

Side effects of the Python code are made explicit:
  * the per-request `context.current` object becomes a `Ctx` value threaded
    through every wrapper;
  * database calls, logger calls, context writes and handler invocations
    become an event trace (`List Ev`) returned alongside the result;
  * a Python function that may raise becomes a function returning
    `Outcome`, whose `exc` constructor carries the raised exception.
External collaborators that the module only calls (urllib.unquote,
json.loads, sessionlib.sid2uidgroups, err.to_dict) are passed in as
function parameters, exactly as opaque to the wrapper as they are in the
source.
-/

/-- Keyword arguments / decoded request bodies: a Python dict with string
keys and (string-rendered) values, modelled as an association list in
insertion order. -/
abbrev Kw := List (String × String)

/-- `kw.get(k)` on the association-list model of a dict. -/
def kwLookup (kw : Kw) (k : String) : Option String :=
  match kw with
  | [] => none
  | (k1, v) :: rest => if k1 = k then some v else kwLookup rest k

/-- Removal of a key, as done by `kw.pop(k, None)` on a dict. -/
def kwErase (kw : Kw) (k : String) : Kw :=
  match kw with
  | [] => []
  | (k1, v) :: rest => if k1 = k then kwErase rest k else (k1, v) :: kwErase rest k

/-- `d[k] = v` on a Python dict: an existing key keeps its position and gets
the new value, a new key is appended (insertion order). -/
def setKey (kw : Kw) (k v : String) : Kw :=
  if (kwLookup kw k).isSome then
    kw.map (fun p => if p.1 = k then (k, v) else p)
  else kw ++ [(k, v)]

/-- `kw.update(src)`: every pair of `src` is stored into `kw` in order. -/
def updateKw (kw : Kw) (src : Kw) : Kw :=
  src.foldl (fun acc p => setKey acc p.1 p.2) kw

/-- The per-request `context.current` object: `sid` is optional because the
code probes it with `hasattr`; `uid` and `groups` are plain attributes. -/
structure Ctx where
  sid : Option String
  uid : Int
  groups : List String
deriving DecidableEq

/-- Diagnostic payload of the role-check `AccessDenied`:
`dict(groups=groups, roles_required=roles_required)`. -/
structure ADData where
  groups : List String
  roles_required : List String
deriving DecidableEq

/-- The exceptions the module raises or catches.  `accessDenied` and
`baseError` come from `appbase.errors`; `typeError` / `valueError` /
`other` stand for the remaining Python exceptions, all of which only the
final `except Exception` clause of `flaskapi` can catch. -/
inductive Exc where
  | accessDenied : Option String → Option ADData → Exc
  | baseError : String → Exc
  | typeError : String → Exc
  | valueError : String → Exc
  | other : String → Exc
deriving DecidableEq

/-- Result of running a Python callable: a normal return or a raised
exception. -/
inductive Outcome (α : Type) where
  | ok : α → Outcome α
  | exc : Exc → Outcome α
deriving DecidableEq

/-- JSON-able values appearing in response dicts (`err.to_dict()` bodies
carry strings, numbers, and lists of strings such as `groups`). -/
inductive JVal where
  | jstr : String → JVal
  | jnum : Int → JVal
  | jstrs : List String → JVal
deriving DecidableEq

/-- A JSON object used as a response body. -/
abbrev JDict := List (String × JVal)

/-- Observable effects of one request, in program order: database
transaction calls, writes to `context.current`, the wrapped handler's
invocation (with the keyword arguments it receives), and logger calls. -/
inductive Ev where
  | tr_start : Ev
  | tr_complete : Ev
  | tr_abort : Ev
  | setUid : Int → Ev
  | setGroups : List String → Ev
  | setSid : String → Ev
  | callHandler : Kw → Ev
  | logExc : String → Ev
  | logParams : String → Kw → Ev
deriving DecidableEq

/-- A Python handler as manipulated by the decorators: the optional
`roles_required` attribute probed with `getattr`, and its behaviour as a
function from keyword arguments and request context to an outcome, the
updated context, and the trace of its effects.  `functools.wraps` copies
the attribute onto each wrapper, which is why every decorator below
preserves `roles_required`. -/
structure PyHandler (α : Type) where
  roles_required : Option (List String)
  run : Kw → Ctx → Outcome α × Ctx × List Ev

/-- Lift a pure handler body into `PyHandler`; its only effect is the
observable fact that it was called, recorded with the arguments used. -/
def mkHandler {α : Type} (rr : Option (List String))
    (g : Kw → Ctx → Outcome α × Ctx) : PyHandler α :=
  { roles_required := rr
    run := fun kw ctx => ((g kw ctx).1, (g kw ctx).2, [Ev.callHandler kw]) }

/-- `dbtransaction` (publishers.py lines 89-102): `db.tr_start()`, then the
handler inside `try`; on normal return `db.tr_complete()` and the result is
returned; on a raised exception `db.tr_abort()` and the exception is
re-raised.  The handler runs exactly once. -/
def dbtransaction {α : Type} (h : PyHandler α) : PyHandler α :=
  { roles_required := h.roles_required
    run := fun kw ctx =>
      match h.run kw ctx with
      | (Outcome.ok v, ctx2, ev) =>
          (Outcome.ok v, ctx2, Ev.tr_start :: (ev ++ [Ev.tr_complete]))
      | (Outcome.exc e, ctx2, ev) =>
          (Outcome.exc e, ctx2, Ev.tr_start :: (ev ++ [Ev.tr_abort])) }

/-- Truthy projection of `context.current.sid` as probed with `hasattr`
and then read: absent attribute or empty string are both falsy. -/
def sidOfCtx : Option String → Option String
  | some t => if t ≠ "" then some t else none
  | none => none

/-- The popped reserved keyword argument `_session_id`, or else the
context attribute `sid` when it exists, with Python truthiness: every
falsy outcome (absent key, empty string, absent attribute) collapses to
`none`. -/
def effSessionId (popped : Option String) (ctxSid : Option String) : Option String :=
  match popped with
  | some s => if s ≠ "" then some s else sidOfCtx ctxSid
  | none => sidOfCtx ctxSid

/-- `protected` (publishers.py lines 105-120).  `resolver` stands for the
external `sessionlib.sid2uidgroups`.  When the handler has no truthy
`roles_required` attribute the handler itself is returned.  Otherwise the
wrapper pops `_session_id`, falls back to the sid of the context, raises
the session-not-found `AccessDenied` when neither is truthy, resolves
the session to `(uid, groups)`, writes `sid`/`uid`/`groups` into the
context, raises `AccessDenied(data=dict(groups=..., roles_required=...))`
when `groups` does not intersect the required roles, and calls the handler
otherwise. -/
def protectedWrap {α : Type} (resolver : String → Int × List String)
    (h : PyHandler α) : PyHandler α :=
  match h.roles_required with
  | none => h
  | some rs =>
    if rs = [] then h
    else
      { roles_required := h.roles_required
        run := fun kw ctx =>
          match effSessionId (kwLookup kw "_session_id") ctx.sid with
          | none =>
              (Outcome.exc (Exc.accessDenied (some "session not found") none), ctx, [])
          | some sid =>
              let uid := (resolver sid).1
              let groups := (resolver sid).2
              let ctx2 : Ctx := { sid := some sid, uid := uid, groups := groups }
              let evs := [Ev.setSid sid, Ev.setUid uid, Ev.setGroups groups]
              if groups.any (fun g => rs.contains g) then
                match h.run (kwErase kw "_session_id") ctx2 with
                | (r, c, ev) => (r, c, evs ++ ev)
              else
                (Outcome.exc
                  (Exc.accessDenied none (some { groups := groups, roles_required := rs })),
                 ctx2, evs) }

/-- `wrapped` (publishers.py line 123-124): the composition applied to every
registered handler. -/
def wrappedDec {α : Type} (resolver : String → Int × List String)
    (h : PyHandler α) : PyHandler α :=
  protectedWrap resolver (dbtransaction h)

/-- The Flask request as seen by `flaskapi`: method, the `session_id`
cookie, the parsed JSON body (`request.json`, `none` when the request does
not carry JSON), the raw body (`request.data`), the form fields
(`request.form`), and the `Access-Control-Request-Headers` header echoed by
`add_cors_headers`. -/
structure FlaskReq where
  method : String
  cookieSessionId : Option String
  jsonBody : Option Kw
  dataStr : String
  form : Kw
  acrh : String
deriving DecidableEq

/-- A handler's successful return value: either a Python dict (serialized
with `jsonify`) or any other object (serialized with `jsonify_unsafe`,
kept opaque here). -/
inductive HRes where
  | dict : JDict → HRes
  | nonDict : String → HRes
deriving DecidableEq

/-- The response body produced by `flaskapi`. -/
inductive RespBody where
  | jsonDict : JDict → RespBody
  | jsonUnsafe : String → RespBody
  | defaultOptions : RespBody
deriving DecidableEq

/-- The CORS headers set by `add_cors_headers`. -/
structure CorsH where
  origin : String
  maxAge : String
  allowMethods : String
  allowHeaders : String
deriving DecidableEq

/-- The HTTP response assembled by `flaskapi`: body, status code, and the
CORS headers (`none` until `add_cors_headers` runs). -/
structure Resp where
  body : RespBody
  status : Nat
  cors : Option CorsH
deriving DecidableEq

/-- `add_cors_headers` (publishers.py lines 40-44): wildcard origin,
max-age 10368000, the fixed method list, and the echoed request headers. -/
def addCorsHeaders (req : FlaskReq) (r : Resp) : Resp :=
  { r with cors := some { origin := "*", maxAge := "10368000",
                          allowMethods := "GET, POST, PUT, OPTIONS, PATCH",
                          allowHeaders := req.acrh } }

/-- `isinstance(result, dict)` dispatch between `jsonify` and
`jsonify_unsafe` (publishers.py lines 79-82). -/
def respBodyOf : HRes → RespBody
  | HRes.dict d => RespBody.jsonDict d
  | HRes.nonDict s => RespBody.jsonUnsafe s

/-- The session id `flaskapi` stores into the context (lines 52-56): the
`session_id` cookie when truthy, URL-unquoted when
the REQUEST_METHOD entry of `request.environ` is truthy.  `unquote` stands
for the external `urllib.unquote`. -/
def cookieSid (unquote : String → String) (req : FlaskReq) : Option String :=
  match req.cookieSessionId with
  | some s => if s ≠ "" then some (if req.method ≠ "" then unquote s else s) else none
  | none => none

/-- The context after `flaskapi`'s opening lines 50-56: `uid = 0` and
`groups = []` unconditionally, then `sid` from the cookie when present. -/
def ctxAfterPreamble (unquote : String → String) (req : FlaskReq) (ctx : Ctx) : Ctx :=
  match cookieSid unquote req with
  | some s => { sid := some s, uid := 0, groups := [] }
  | none => { sid := ctx.sid, uid := 0, groups := [] }

/-- The context writes performed by `flaskapi`'s opening lines, in program
order. -/
def preambleEvents (unquote : String → String) (req : FlaskReq) : List Ev :=
  Ev.setUid 0 :: Ev.setGroups [] ::
    (match cookieSid unquote req with
     | some s => [Ev.setSid s]
     | none => [])

/-- `request.data and json.loads(request.data)` followed by
`or request.form`: the parse of the raw body is used only when the raw body
is truthy (non-empty) and the parsed value is itself truthy (a non-empty
dict); otherwise the form fields are used.  `parse` stands for the external
`json.loads`. -/
def dataParsedOrForm (dataStr : String) (parse : String → Kw) (form : Kw) : Kw :=
  if dataStr ≠ "" then (if parse dataStr ≠ [] then parse dataStr else form)
  else form

/-- The single body source merged by line 61,
`request.json or (request.data and json.loads(request.data)) or
request.form`, with Python truthiness deciding each `or`. -/
def bodySource (jsonBody : Option Kw) (dataStr : String) (parse : String → Kw)
    (form : Kw) : Kw :=
  match jsonBody with
  | some j => if j ≠ [] then j else dataParsedOrForm dataStr parse form
  | none => dataParsedOrForm dataStr parse form

/-- `kw.update(...)` of line 61: the incoming keyword arguments merged with
the chosen body source. -/
def flaskMergedKw (parse : String → Kw) (req : FlaskReq) (kw : Kw) : Kw :=
  updateKw kw (bodySource req.jsonBody req.dataStr parse req.form)

/-- `dict((k, str(v)[:50]) for (k, v) in kw.items())` of line 77. -/
def truncParams (kw : Kw) : Kw := kw.map (fun p => (p.1, p.2.take 50))

/-- The `try`/`except` ladder and serialization of `flaskapi` lines 62-83,
applied to the handler's outcome.  `toDict` stands for the external
`err.to_dict()`; `errId` for `str(random.random())[2:]`.  Returns
`(body, status)`, the context after the handler, and the trace extended
with the logger calls. -/
def dispatchResult (toDict : Exc → JDict) (errId : String) (kw2 : Kw)
    (out : Outcome HRes × Ctx × List Ev) : (RespBody × Nat) × Ctx × List Ev :=
  match out with
  | (Outcome.ok r, c, ev) => ((respBodyOf r, 200), c, ev)
  | (Outcome.exc (Exc.accessDenied m d), c, ev) =>
      ((RespBody.jsonDict (toDict (Exc.accessDenied m d)), 403), c,
       ev ++ [Ev.logExc "Access Denied error: "])
  | (Outcome.exc (Exc.baseError m), c, ev) =>
      ((RespBody.jsonDict (toDict (Exc.baseError m)), 500), c,
       ev ++ [Ev.logExc "API Execution error: "])
  | (Outcome.exc _, c, ev) =>
      ((RespBody.jsonDict [("msg", JVal.jstr ("Server error: " ++ errId))], 500), c,
       ev ++ [Ev.logExc ("Unhandled API Execution error [" ++ errId ++ "]: "),
              Ev.logParams errId (truncParams kw2)])

/-- `flaskapi` (publishers.py lines 47-86): set the anonymous identity,
store the cookie session id, then either answer `OPTIONS` with the default
options response or merge the body into the keyword arguments, call the
wrapped handler, map exceptions to statuses, serialize, and finally attach
the CORS headers. -/
def flaskapi (unquote : String → String) (parse : String → Kw)
    (toDict : Exc → JDict) (errId : String)
    (f : Kw → Ctx → Outcome HRes × Ctx × List Ev)
    (req : FlaskReq) (kw : Kw) (ctx : Ctx) : Resp × Ctx × List Ev :=
  if req.method = "OPTIONS" then
    (addCorsHeaders req { body := RespBody.defaultOptions, status := 200, cors := none },
     ctxAfterPreamble unquote req ctx, preambleEvents unquote req)
  else
    let kw2 := flaskMergedKw parse req kw
    let d := dispatchResult toDict errId kw2 (f kw2 (ctxAfterPreamble unquote req ctx))
    (addCorsHeaders req { body := d.1.1, status := d.1.2, cors := none }, d.2.1,
     preambleEvents unquote req ++ Ev.callHandler kw2 :: d.2.2)

/-- Python values reaching `CustomJSONEncoder.default`, i.e. objects the
base encoder cannot serialize itself: dates, datetimes, decimals
(represented exactly as `mant * 10 ^ (-exp)`), other iterables (with their
elements in iteration order), and non-iterable objects of other types. -/
inductive PyObj where
  | dateV : Nat → Nat → Nat → PyObj
  | datetimeV : Nat → Nat → Nat → Nat → Nat → Nat → PyObj
  | decimalV : Int → Nat → PyObj
  | iterV : String → List PyObj → PyObj
  | otherV : String → PyObj

/-- Zero-padding to two digits, as `datetime.isoformat` renders fields. -/
def pad2 (n : Nat) : String := if n < 10 then "0" ++ toString n else toString n

/-- Zero-padding of the year to four digits. -/
def pad4 (n : Nat) : String :=
  if n < 10 then "000" ++ toString n
  else if n < 100 then "00" ++ toString n
  else if n < 1000 then "0" ++ toString n
  else toString n

/-- `datetime.date.isoformat()`: the ISO-8601 date string YYYY-MM-DD. -/
def isoDate (y m d : Nat) : String := pad4 y ++ "-" ++ pad2 m ++ "-" ++ pad2 d

/-- `datetime.datetime.isoformat()` (zero microseconds): the ISO-8601
string YYYY-MM-DDTHH:MM:SS. -/
def isoDatetime (y mo d h mi s : Nat) : String :=
  isoDate y mo d ++ "T" ++ pad2 h ++ ":" ++ pad2 mi ++ ":" ++ pad2 s

/-- `isinstance(obj, (datetime.date, datetime.datetime))`; `datetime` is a
subclass of `date`, so both constructors satisfy it. -/
def isDatetimeLike : PyObj → Bool
  | PyObj.dateV _ _ _ => true
  | PyObj.datetimeV _ _ _ _ _ _ => true
  | _ => false

/-- `isinstance(obj, decimal.Decimal)`. -/
def isDecimalObj : PyObj → Bool
  | PyObj.decimalV _ _ => true
  | _ => false

/-- `obj.isoformat()` on the date-like constructors. -/
def isoformatOf : PyObj → String
  | PyObj.dateV y m d => isoDate y m d
  | PyObj.datetimeV y mo d h mi s => isoDatetime y mo d h mi s
  | _ => ""

/-- `iter(obj)`: the element sequence for an iterable, a `TypeError`
(`none`) for anything else.  None of the date, datetime or decimal objects
are iterable in Python, matching the constructors here. -/
def pyIter : PyObj → Option (List PyObj)
  | PyObj.iterV _ elts => some elts
  | _ => none

/-- Values returned by `CustomJSONEncoder.default`: an ISO string, the
`float(...)` conversion of a decimal (kept symbolic as the decimal it
converts—IEEE rounding is not modelled), or the `list(...)` of an
iterable. -/
inductive EncRes where
  | strVal : String → EncRes
  | floatOfDecimal : Int → Nat → EncRes
  | listVal : List PyObj → EncRes

/-- `float(obj)` applied to a decimal object. -/
def floatOf : PyObj → EncRes
  | PyObj.decimalV m e => EncRes.floatOfDecimal m e
  | _ => EncRes.floatOfDecimal 0 0

/-- `flask.json.JSONEncoder.default`, the standard fallback: it always
raises a TypeError saying the object is not JSON serializable. -/
def JSONEncoderDefault (_obj : PyObj) : Except String EncRes :=
  Except.error "is not JSON serializable"

/-- `CustomJSONEncoder.default` (publishers.py lines 19-32): dates and
datetimes to their `isoformat()`, decimals to `float(...)`, then
`iter(obj)` inside the `try`—a `TypeError` falls through (`pass`) to the
base encoder, while the `else` branch returns `list(iterable)`. -/
def CustomJSONEncoder.default (obj : PyObj) : Except String EncRes :=
  if isDatetimeLike obj then Except.ok (EncRes.strVal (isoformatOf obj))
  else if isDecimalObj obj then Except.ok (floatOf obj)
  else
    match pyIter obj with
    | some it => Except.ok (EncRes.listVal it)
    | none => JSONEncoderDefault obj

/-- A URL rule registered on the Flask app:
`app.add_url_rule(url, None, flaskapi(app, protected(dbtransaction(handler))), methods=methods)`.
The handler is identified by name; the methods list is the one passed to
Flask. -/
structure UrlRule where
  url : String
  handler : String
  methods : List String
deriving DecidableEq

/-- `add_url_rule` (publishers.py lines 127-131): `methods.append(...)`
appends the OPTIONS entry to the very list object the caller passed,
mutating it in place, then the rule is registered with that same list.
The mutation is returned as the second component so callers that share the
list (the `add_mapping` default argument) observe it. -/
def add_url_rule (url handler : String) (methods : List String) :
    UrlRule × List String :=
  let m := methods ++ ["OPTIONS"]
  ({ url := url, handler := handler, methods := m }, m)

/-- `HTTPPublisher.add_mapping` (publishers.py lines 200-204) with the
default methods argument, the GET singleton list: the shared default list
is passed to `add_url_rule`, which mutates it.  The state is that shared
list object. -/
def add_mapping (methodsState : List String) (url handler : String) :
    UrlRule × List String :=
  add_url_rule url handler methodsState

/-- A sequence of `add_mapping` calls that all rely on the default
`methods` argument, threading the shared default-list object. -/
def runCallsFrom (st : List String) : List (String × String) → List UrlRule
  | [] => []
  | p :: rest =>
      let r := add_mapping st p.1 p.2
      r.1 :: runCallsFrom r.2 rest

/-- The rules registered by the given default-argument `add_mapping`
calls; Python evaluates the default GET list once, at `def` time. -/
def add_mapping_calls (urls : List (String × String)) : List UrlRule :=
  runCallsFrom ["GET"] urls

/-- The three shapes `map_resource` distinguishes for its `handlers`
argument: a dict, a list/tuple (of optional handlers), or anything else. -/
inductive Handlers where
  | dictH : List (String × String) → Handlers
  | seqH : List (Option String) → Handlers
  | otherH : String → Handlers
deriving DecidableEq

/-- The rule `map_resource` registers for one present handler (it passes a
fresh `methods` list literal at each call site, so only the registered rule
matters). -/
def ruleFor (u h : String) (ms : List String) : UrlRule :=
  (add_url_rule u h ms).1

/-- `RESTPublisher.map_resource` (publishers.py lines 150-190).  For a dict
(and for any non-list/tuple) the code executes `raise NotImplemented`;
`NotImplemented` is a constant, not an exception class, so Python actually
raises `TypeError` at that statement.  A list/tuple is unpacked into the
five conventional handlers (a length other than five raises `ValueError`),
and each present handler is registered at its conventional URL/method. -/
def map_resource (urlsBase url : String) (handlers : Handlers)
    (idType idName : String) : Except Exc (List UrlRule) :=
  let collectionUrl := urlsBase ++ url
  let resourceUrl := collectionUrl ++ "<" ++ idType ++ ":" ++ idName ++ ">"
  match handlers with
  | Handlers.dictH _ =>
      Except.error (Exc.typeError "exceptions must derive from BaseException")
  | Handlers.seqH items =>
      match items with
      | [gc, ar, gr, er, dr] =>
          Except.ok
            ((match gc with | some h => [ruleFor collectionUrl h ["GET"]] | none => []) ++
             (match ar with | some h => [ruleFor collectionUrl h ["POST"]] | none => []) ++
             (match gr with | some h => [ruleFor resourceUrl h ["GET"]] | none => []) ++
             (match er with | some h => [ruleFor resourceUrl h ["POST"]] | none => []) ++
             (match dr with | some h => [ruleFor resourceUrl h ["DELETE"]] | none => []))
      | _ => Except.error (Exc.valueError "wrong number of values to unpack")
  | Handlers.otherH _ =>
      Except.error (Exc.typeError "exceptions must derive from BaseException")

/-- The body-source selection exactly as claim C7 words it: the parsed
JSON body if present, otherwise the raw request data parsed as JSON if the
raw data is non-empty, otherwise the form fields.  Written from the
claim, to be compared with `bodySource`, which is written from the
source. -/
def bodySourceClaimed (jsonBody : Option Kw) (dataStr : String)
    (parse : String → Kw) (form : Kw) : Kw :=
  match jsonBody with
  | some j => j
  | none => if dataStr ≠ "" then parse dataStr else form

/-- Claim C7 as stated, over the embedding: every non-OPTIONS request
calls the handler with the incoming keyword arguments merged with the
claim-worded body choice. -/
def C7Stated : Prop :=
  ∀ (unquote : String → String) (parse : String → Kw) (toDict : Exc → JDict)
    (errId : String) (f : Kw → Ctx → Outcome HRes × Ctx × List Ev)
    (req : FlaskReq) (kw : Kw) (ctx : Ctx),
    req.method ≠ "OPTIONS" →
    Ev.callHandler (updateKw kw (bodySourceClaimed req.jsonBody req.dataStr parse req.form))
      ∈ (flaskapi unquote parse toDict errId f req kw ctx).2.2

/-- The body-source selection as the amended claim words it: the parsed
JSON body when it is present and non-empty; otherwise the raw request
data parsed as JSON when both the raw data and its parsed value are
non-empty; otherwise the form fields. -/
def bodySourceAmended (jsonBody : Option Kw) (dataStr : String)
    (parse : String → Kw) (form : Kw) : Kw :=
  if jsonBody.getD [] ≠ [] then jsonBody.getD []
  else if dataStr ≠ "" ∧ parse dataStr ≠ [] then parse dataStr
  else form

/-- `isinstance` shape of the exceptions only the final generic
`except Exception` clause of `flaskapi` catches. -/
def isOtherExc : Exc → Bool
  | Exc.accessDenied _ _ => false
  | Exc.baseError _ => false
  | _ => true

/-- An empty request context, as at the start of a fresh request. -/
def ctx0 : Ctx := { sid := none, uid := 0, groups := [] }

/-- A concrete session resolver standing in for `sid2uidgroups`. -/
def resolver0 : String → Int × List String := fun _ => (7, ["admin"])

/-- A concrete handler that returns normally. -/
def okHandler : PyHandler Nat :=
  { roles_required := none, run := fun _ c => (Outcome.ok 7, c, [Ev.callHandler []]) }

/-- A concrete handler body for the authorization-gate witnesses. -/
def g0 : Kw → Ctx → Outcome Nat × Ctx := fun _ c => (Outcome.ok 3, c)

/-- A concrete handler body returning a non-dict result. -/
def gHR : Kw → Ctx → Outcome HRes × Ctx := fun _ c => (Outcome.ok (HRes.nonDict "x"), c)

/-- Identity in place of `urllib.unquote` for concrete runs. -/
def unquote0 : String → String := fun s => s

/-- A concrete `json.loads` stand-in that parses nothing. -/
def parse0 : String → Kw := fun _ => []

/-- A concrete `err.to_dict()` stand-in. -/
def toDict0 : Exc → JDict := fun _ => []

/-- A concrete handler that raises a generic (non-declared) exception. -/
def fboom : Kw → Ctx → Outcome HRes × Ctx × List Ev :=
  fun _ c => (Outcome.exc (Exc.other "boom"), c, [])

/-- A concrete handler that returns a non-dict result. -/
def fok : Kw → Ctx → Outcome HRes × Ctx × List Ev :=
  fun _ c => (Outcome.ok (HRes.nonDict "r"), c, [])

/-- A concrete GET request whose parsed JSON body is present but empty and
whose form fields are non-empty. -/
def reqCex : FlaskReq :=
  { method := "GET", cookieSessionId := none, jsonBody := some [],
    dataStr := "", form := [("a", "1")], acrh := "" }

/-- A concrete GET request with only form fields. -/
def req0 : FlaskReq :=
  { method := "GET", cookieSessionId := none, jsonBody := none,
    dataStr := "", form := [("a", "1")], acrh := "" }

/-- A concrete OPTIONS preflight request. -/
def reqOpt : FlaskReq :=
  { method := "OPTIONS", cookieSessionId := none, jsonBody := none,
    dataStr := "", form := [], acrh := "X-Custom" }

/-- Claim C1: every invocation of a `dbtransaction`-wrapped handler first
begins a transaction; when the handler returns normally the transaction is
committed and the result is returned unchanged; when the handler raises,
the transaction is rolled back and the same exception is re-raised; the
trace equations show the handler runs exactly once (no retry). -/
theorem dbtransaction_bracket {α : Type} (h : PyHandler α) (kw : Kw) (ctx : Ctx) :
    (∃ t, ((dbtransaction h).run kw ctx).2.2 = Ev.tr_start :: t) ∧
    (∀ v c ev, h.run kw ctx = (Outcome.ok v, c, ev) →
      (dbtransaction h).run kw ctx =
        (Outcome.ok v, c, Ev.tr_start :: (ev ++ [Ev.tr_complete]))) ∧
    (∀ e c ev, h.run kw ctx = (Outcome.exc e, c, ev) →
      (dbtransaction h).run kw ctx =
        (Outcome.exc e, c, Ev.tr_start :: (ev ++ [Ev.tr_abort]))) := by
  refine ⟨?_, ?_, ?_⟩
  · rcases hr : h.run kw ctx with ⟨r, c, ev⟩
    cases r with
    | ok v => exact ⟨ev ++ [Ev.tr_complete], by simp [dbtransaction, hr]⟩
    | exc e => exact ⟨ev ++ [Ev.tr_abort], by simp [dbtransaction, hr]⟩
  · intro v c ev hv
    simp [dbtransaction, hv]
  · intro e c ev he
    simp [dbtransaction, he]

/-- Concrete run of `dbtransaction_bracket`: a handler returning 7 with one
observable call is bracketed by begin/commit and its result is unchanged. -/
theorem dbtransaction_bracket_witness :
    okHandler.run [] ctx0 = (Outcome.ok 7, ctx0, [Ev.callHandler []]) ∧
    (dbtransaction okHandler).run [] ctx0 =
      (Outcome.ok 7, ctx0, [Ev.tr_start, Ev.callHandler [], Ev.tr_complete]) := by
  refine ⟨rfl, ?_⟩
  have h := (dbtransaction_bracket okHandler [] ctx0).2.1 7 ctx0 [Ev.callHandler []] rfl
  simpa using h

/-- Claim C4: a handler without a `roles_required` attribute passes through
`protected` unchanged—the very same handler is returned, so every
invocation behaves identically and no session lookup or `AccessDenied` can
originate from the gate. -/
theorem protected_no_roles_id {α : Type} (resolver : String → Int × List String)
    (h : PyHandler α) (hr : h.roles_required = none) :
    protectedWrap resolver h = h := by
  simp [protectedWrap, hr]

/-- Concrete run of `protected_no_roles_id` on a handler with no
`roles_required` attribute. -/
theorem protected_no_roles_id_witness :
    okHandler.roles_required = none ∧ protectedWrap resolver0 okHandler = okHandler :=
  ⟨rfl, protected_no_roles_id resolver0 okHandler rfl⟩

/-- Claim C6: `CustomJSONEncoder.default` maps dates and datetimes to their
ISO-8601 string, decimals to their float conversion, any other iterable to
the list of its elements in iteration order, and lets every other
non-iterable value fall through to the standard encoder. -/
theorem custom_encoder_cases :
    (∀ y m d, CustomJSONEncoder.default (PyObj.dateV y m d) =
        Except.ok (EncRes.strVal (isoDate y m d))) ∧
    (∀ y mo d h mi s, CustomJSONEncoder.default (PyObj.datetimeV y mo d h mi s) =
        Except.ok (EncRes.strVal (isoDatetime y mo d h mi s))) ∧
    (∀ m e, CustomJSONEncoder.default (PyObj.decimalV m e) =
        Except.ok (EncRes.floatOfDecimal m e)) ∧
    (∀ n elts, CustomJSONEncoder.default (PyObj.iterV n elts) =
        Except.ok (EncRes.listVal elts)) ∧
    (∀ n, CustomJSONEncoder.default (PyObj.otherV n) =
        JSONEncoderDefault (PyObj.otherV n)) := by
  refine ⟨?_, ?_, ?_, ?_, ?_⟩ <;> intros <;> rfl

/-- Claim C8 (code bug): with a dict `handlers` argument, `map_resource`
registers no URL rule and raises—but because the statement is
`raise NotImplemented`, naming the non-exception constant, the exception
Python actually raises there is `TypeError`, not the intended
`NotImplementedError`. -/
theorem map_resource_dict_eval :
    map_resource "/api/" "todos/" (Handlers.dictH [("get", "get_todo")]) "string" "id" =
      Except.error (Exc.typeError "exceptions must derive from BaseException") := rfl

/-- Claim C3: for a handler with a non-empty `roles_required` attribute,
the gate raises the session-not-found `AccessDenied` when neither the
reserved `_session_id` keyword argument nor the context yields a session
id; when the session resolves to groups with empty intersection against
the required roles it raises `AccessDenied` carrying those groups and
roles as data, without calling the handler; otherwise it populates the
context with sid, uid and groups and calls the handler through (with the
reserved argument removed). -/
theorem protected_roles_gate {α : Type} (resolver : String → Int × List String)
    (rs : List String) (g : Kw → Ctx → Outcome α × Ctx) (kw : Kw) (ctx : Ctx)
    (hne : rs ≠ []) :
    (effSessionId (kwLookup kw "_session_id") ctx.sid = none →
      (protectedWrap resolver (mkHandler (some rs) g)).run kw ctx =
        (Outcome.exc (Exc.accessDenied (some "session not found") none), ctx, [])) ∧
    (∀ sid, effSessionId (kwLookup kw "_session_id") ctx.sid = some sid →
      ((resolver sid).2.any (fun x => rs.contains x) = false →
        (protectedWrap resolver (mkHandler (some rs) g)).run kw ctx =
          (Outcome.exc (Exc.accessDenied none
              (some { groups := (resolver sid).2, roles_required := rs })),
           { sid := some sid, uid := (resolver sid).1, groups := (resolver sid).2 },
           [Ev.setSid sid, Ev.setUid (resolver sid).1, Ev.setGroups (resolver sid).2]) ∧
        (∀ c, Ev.callHandler c ∉
          ((protectedWrap resolver (mkHandler (some rs) g)).run kw ctx).2.2)) ∧
      ((resolver sid).2.any (fun x => rs.contains x) = true →
        (protectedWrap resolver (mkHandler (some rs) g)).run kw ctx =
          ((g (kwErase kw "_session_id")
              { sid := some sid, uid := (resolver sid).1, groups := (resolver sid).2 }).1,
           (g (kwErase kw "_session_id")
              { sid := some sid, uid := (resolver sid).1, groups := (resolver sid).2 }).2,
           [Ev.setSid sid, Ev.setUid (resolver sid).1, Ev.setGroups (resolver sid).2,
            Ev.callHandler (kwErase kw "_session_id")]))) := by
  constructor
  · intro h0
    simp [protectedWrap, mkHandler, hne, h0]
  · intro sid hs
    constructor
    · intro hfalse
      have hcond : ¬ ∃ x ∈ (resolver sid).2, x ∈ rs := by simpa using hfalse
      constructor
      · simp [protectedWrap, mkHandler, hne, hs, hcond]
      · intro c
        simp [protectedWrap, mkHandler, hne, hs, hcond]
    · intro htrue
      have hcond : ∃ x ∈ (resolver sid).2, x ∈ rs := by simpa using htrue
      simp [protectedWrap, mkHandler, hne, hs, hcond]

/-- Concrete run of `protected_roles_gate`: a session in `_session_id`
resolving to intersecting groups calls the handler with the reserved
argument removed and the context populated. -/
theorem protected_roles_gate_witness :
    (protectedWrap resolver0 (mkHandler (some ["admin"]) g0)).run
        [("_session_id", "s1")] ctx0 =
      (Outcome.ok 3, { sid := some "s1", uid := 7, groups := ["admin"] },
       [Ev.setSid "s1", Ev.setUid 7, Ev.setGroups ["admin"], Ev.callHandler []]) := by
  have h := ((protected_roles_gate resolver0 ["admin"] g0 [("_session_id", "s1")] ctx0
      (by decide)).2 "s1" (by decide)).2 (by decide)
  simpa using h

/-- The methods lists registered by successive default-argument
`add_mapping` calls, starting from any current state of the shared default
list: each call appends one OPTIONS entry before registering. -/
theorem runCallsFrom_methods (urls : List (String × String)) :
    ∀ st : List String,
      (runCallsFrom st urls).map (fun r => r.methods) =
        (List.range urls.length).map (fun i => st ++ List.replicate (i + 1) "OPTIONS") := by
  induction urls with
  | nil => intro st; simp [runCallsFrom]
  | cons p rest ih =>
      intro st
      simp only [runCallsFrom, add_mapping, add_url_rule, List.map_cons, List.length_cons]
      rw [ih (st ++ ["OPTIONS"]), List.range_succ_eq_map, List.map_cons, List.map_map]
      refine List.cons_eq_cons.mpr ⟨by simp, List.map_congr_left ?_⟩
      intro i _
      simp [Function.comp, List.append_assoc, List.replicate_succ]

/-- Claim C10: `add_url_rule` registers the very list it was handed after
appending OPTIONS to it, and returns that mutated list; since
`HTTPPublisher.add_mapping` evaluates its default methods list once, the
n-th call relying on the default registers GET followed by n accumulated
OPTIONS entries—for n at least 2 that is not the pair [GET, OPTIONS]. -/
theorem add_mapping_default_accumulates :
    (∀ u h m, (add_url_rule u h m).2 = m ++ ["OPTIONS"] ∧
              (add_url_rule u h m).1.methods = m ++ ["OPTIONS"]) ∧
    (∀ urls : List (String × String),
      (add_mapping_calls urls).map (fun r => r.methods) =
        (List.range urls.length).map (fun i => "GET" :: List.replicate (i + 1) "OPTIONS")) ∧
    (∀ n, 2 ≤ n → "GET" :: List.replicate n "OPTIONS" ≠ ["GET", "OPTIONS"]) := by
  refine ⟨fun u h m => ⟨rfl, rfl⟩, ?_, ?_⟩
  · intro urls
    rw [add_mapping_calls, runCallsFrom_methods]
    simp
  · intro n hn hcontra
    have hlen := congrArg List.length hcontra
    simp at hlen
    omega

/-- Concrete run of `add_mapping_default_accumulates`: two default calls
register [GET, OPTIONS] and then [GET, OPTIONS, OPTIONS]. -/
theorem add_mapping_default_accumulates_witness :
    (add_mapping_calls [("/a", "h1"), ("/b", "h2")]).map (fun r => r.methods) =
      [["GET", "OPTIONS"], ["GET", "OPTIONS", "OPTIONS"]] ∧
    (2 ≤ 2 ∧ "GET" :: List.replicate 2 "OPTIONS" ≠ ["GET", "OPTIONS"]) := by
  constructor
  · have h := add_mapping_default_accumulates.2.1 [("/a", "h1"), ("/b", "h2")]
    simpa [List.range_succ] using h
  · exact ⟨by omega, add_mapping_default_accumulates.2.2 2 (by omega)⟩

/-- Claim C2: on a non-OPTIONS request whose wrapped handler raises,
`flaskapi` answers `AccessDenied` with status 403 and body
`err.to_dict()`, `BaseError` with status 500 and body `err.to_dict()`, and
any other exception with status 500, a body whose msg is the
server-error text carrying the random correlation id, and two server-side
log entries keyed by that id, one with the keyword arguments truncated to
50 characters. -/
theorem flaskapi_error_taxonomy
    (unquote : String → String) (parse : String → Kw) (toDict : Exc → JDict)
    (errId : String) (f : Kw → Ctx → Outcome HRes × Ctx × List Ev)
    (req : FlaskReq) (kw : Kw) (ctx : Ctx) (e : Exc) (c2 : Ctx) (ev : List Ev)
    (hm : req.method ≠ "OPTIONS")
    (hf : f (flaskMergedKw parse req kw) (ctxAfterPreamble unquote req ctx) =
      (Outcome.exc e, c2, ev)) :
    (∀ m d, e = Exc.accessDenied m d →
      (flaskapi unquote parse toDict errId f req kw ctx).1.status = 403 ∧
      (flaskapi unquote parse toDict errId f req kw ctx).1.body =
        RespBody.jsonDict (toDict e)) ∧
    (∀ m, e = Exc.baseError m →
      (flaskapi unquote parse toDict errId f req kw ctx).1.status = 500 ∧
      (flaskapi unquote parse toDict errId f req kw ctx).1.body =
        RespBody.jsonDict (toDict e)) ∧
    (isOtherExc e = true →
      (flaskapi unquote parse toDict errId f req kw ctx).1.status = 500 ∧
      (flaskapi unquote parse toDict errId f req kw ctx).1.body =
        RespBody.jsonDict [("msg", JVal.jstr ("Server error: " ++ errId))] ∧
      Ev.logExc ("Unhandled API Execution error [" ++ errId ++ "]: ")
        ∈ (flaskapi unquote parse toDict errId f req kw ctx).2.2 ∧
      Ev.logParams errId (truncParams (flaskMergedKw parse req kw))
        ∈ (flaskapi unquote parse toDict errId f req kw ctx).2.2) := by
  refine ⟨?_, ?_, ?_⟩
  · rintro m d rfl
    exact ⟨by simp [flaskapi, hm, hf, dispatchResult, addCorsHeaders],
           by simp [flaskapi, hm, hf, dispatchResult, addCorsHeaders]⟩
  · rintro m rfl
    exact ⟨by simp [flaskapi, hm, hf, dispatchResult, addCorsHeaders],
           by simp [flaskapi, hm, hf, dispatchResult, addCorsHeaders]⟩
  · intro ho
    cases e with
    | accessDenied m d => simp [isOtherExc] at ho
    | baseError m => simp [isOtherExc] at ho
    | typeError m =>
        refine ⟨?_, ?_, ?_, ?_⟩ <;>
          simp [flaskapi, hm, hf, dispatchResult, addCorsHeaders]
    | valueError m =>
        refine ⟨?_, ?_, ?_, ?_⟩ <;>
          simp [flaskapi, hm, hf, dispatchResult, addCorsHeaders]
    | other m =>
        refine ⟨?_, ?_, ?_, ?_⟩ <;>
          simp [flaskapi, hm, hf, dispatchResult, addCorsHeaders]

/-- Concrete run of `flaskapi_error_taxonomy`: a handler raising a generic
exception yields status 500, the correlation-id body, and both log
entries. -/
theorem flaskapi_error_taxonomy_witness :
    (flaskapi unquote0 parse0 toDict0 "42" fboom req0 [] ctx0).1.status = 500 ∧
    (flaskapi unquote0 parse0 toDict0 "42" fboom req0 [] ctx0).1.body =
      RespBody.jsonDict [("msg", JVal.jstr ("Server error: " ++ "42"))] ∧
    Ev.logExc ("Unhandled API Execution error [" ++ "42" ++ "]: ")
      ∈ (flaskapi unquote0 parse0 toDict0 "42" fboom req0 [] ctx0).2.2 ∧
    Ev.logParams "42" (truncParams (flaskMergedKw parse0 req0 []))
      ∈ (flaskapi unquote0 parse0 toDict0 "42" fboom req0 [] ctx0).2.2 := by
  have h := (flaskapi_error_taxonomy unquote0 parse0 toDict0 "42" fboom req0 [] ctx0
      (Exc.other "boom") (ctxAfterPreamble unquote0 req0 ctx0) []
      (by decide) rfl).2.2 rfl
  exact h

/-- Claim C5: an OPTIONS request is answered with the default options
response, status 200, and the CORS headers (wildcard origin, max-age,
fixed method list, echoed request headers); the trace stops at the
context preamble, so the wrapped handler is never invoked. -/
theorem flaskapi_options_preflight
    (unquote : String → String) (parse : String → Kw) (toDict : Exc → JDict)
    (errId : String) (f : Kw → Ctx → Outcome HRes × Ctx × List Ev)
    (req : FlaskReq) (kw : Kw) (ctx : Ctx)
    (hm : req.method = "OPTIONS") :
    (flaskapi unquote parse toDict errId f req kw ctx).1 =
      { body := RespBody.defaultOptions, status := 200,
        cors := some { origin := "*", maxAge := "10368000",
                       allowMethods := "GET, POST, PUT, OPTIONS, PATCH",
                       allowHeaders := req.acrh } } ∧
    (flaskapi unquote parse toDict errId f req kw ctx).2.2 =
      preambleEvents unquote req ∧
    (∀ c, Ev.callHandler c ∉ (flaskapi unquote parse toDict errId f req kw ctx).2.2) := by
  refine ⟨?_, ?_, ?_⟩
  · simp [flaskapi, hm, addCorsHeaders]
  · simp [flaskapi, hm]
  · intro c
    cases hc : cookieSid unquote req <;>
      simp [flaskapi, hm, preambleEvents, hc]

/-- Concrete run of `flaskapi_options_preflight` on an OPTIONS request. -/
theorem flaskapi_options_preflight_witness :
    (flaskapi unquote0 parse0 toDict0 "0" fboom reqOpt [] ctx0).1 =
      { body := RespBody.defaultOptions, status := 200,
        cors := some { origin := "*", maxAge := "10368000",
                       allowMethods := "GET, POST, PUT, OPTIONS, PATCH",
                       allowHeaders := "X-Custom" } } ∧
    (flaskapi unquote0 parse0 toDict0 "0" fboom reqOpt [] ctx0).2.2 =
      preambleEvents unquote0 reqOpt ∧
    (∀ c, Ev.callHandler c ∉ (flaskapi unquote0 parse0 toDict0 "0" fboom reqOpt [] ctx0).2.2) := by
  exact flaskapi_options_preflight unquote0 parse0 toDict0 "0" fboom reqOpt [] ctx0 rfl

/-- The source body-source expression and the amended wording coincide on
every input. -/
theorem bodySource_eq_amended (jsonBody : Option Kw) (dataStr : String)
    (parse : String → Kw) (form : Kw) :
    bodySource jsonBody dataStr parse form =
      bodySourceAmended jsonBody dataStr parse form := by
  cases jsonBody with
  | none =>
      by_cases hd : dataStr = "" <;> by_cases hp : parse dataStr = [] <;>
        simp [bodySource, bodySourceAmended, dataParsedOrForm, hd, hp]
  | some j =>
      by_cases hj : j = [] <;> by_cases hd : dataStr = "" <;>
          by_cases hp : parse dataStr = [] <;>
        simp [bodySource, bodySourceAmended, dataParsedOrForm, hj, hd, hp]

/-- Claim C7 as stated is false: on a GET request whose JSON body is
present but parses to the empty dict and whose form is non-empty, the
code merges the form fields, not the (present) JSON body—the or-chain
tests Python truthiness, not presence. -/
theorem flaskapi_body_priority_cex : ¬ C7Stated := by
  intro hcl
  have h := hcl unquote0 parse0 toDict0 "0" fok reqCex [] ctx0 (by decide)
  revert h
  decide

/-- Claim C7 amended: on every non-OPTIONS request exactly one body source
is merged into the incoming keyword arguments, with the truthiness
priority of the source: the parsed JSON body when present and non-empty,
otherwise the raw data parsed as JSON when the raw data and its parse are
both non-empty, otherwise the form fields; the handler is called with the
merged keyword arguments. -/
theorem flaskapi_body_priority
    (unquote : String → String) (parse : String → Kw) (toDict : Exc → JDict)
    (errId : String) (f : Kw → Ctx → Outcome HRes × Ctx × List Ev)
    (req : FlaskReq) (kw : Kw) (ctx : Ctx)
    (hm : req.method ≠ "OPTIONS") :
    flaskMergedKw parse req kw =
      updateKw kw (bodySourceAmended req.jsonBody req.dataStr parse req.form) ∧
    Ev.callHandler (updateKw kw (bodySourceAmended req.jsonBody req.dataStr parse req.form))
      ∈ (flaskapi unquote parse toDict errId f req kw ctx).2.2 := by
  have he : flaskMergedKw parse req kw =
      updateKw kw (bodySourceAmended req.jsonBody req.dataStr parse req.form) := by
    rw [flaskMergedKw, bodySource_eq_amended]
  refine ⟨he, ?_⟩
  rw [← he]
  simp [flaskapi, hm]

/-- Concrete run of `flaskapi_body_priority`: with no JSON body and empty
raw data the form fields are merged and the handler receives them. -/
theorem flaskapi_body_priority_witness :
    flaskMergedKw parse0 req0 [] = [("a", "1")] ∧
    Ev.callHandler [("a", "1")]
      ∈ (flaskapi unquote0 parse0 toDict0 "0" fok req0 [] ctx0).2.2 := by
  have h := flaskapi_body_priority unquote0 parse0 toDict0 "0" fok req0 [] ctx0 (by decide)
  exact h

/-- Claim C9: on every request—OPTIONS or not—the very first observable
effects of `flaskapi` are the writes of the anonymous identity (uid 0,
empty groups), before any body decoding, authorization or handler
invocation; and `protected` can later overwrite this identity with
the resolved one (default-then-elevate). -/
theorem flaskapi_default_then_elevate :
    (∀ (unquote : String → String) (parse : String → Kw) (toDict : Exc → JDict)
       (errId : String) (f : Kw → Ctx → Outcome HRes × Ctx × List Ev)
       (req : FlaskReq) (kw : Kw) (ctx : Ctx),
      ∃ rest, (flaskapi unquote parse toDict errId f req kw ctx).2.2 =
        Ev.setUid 0 :: Ev.setGroups [] :: rest) ∧
    (∃ (resolver : String → Int × List String) (g : Kw → Ctx → Outcome HRes × Ctx)
       (kw : Kw),
      ((protectedWrap resolver (mkHandler (some ["admin"]) g)).run kw ctx0).2.1.uid ≠ 0) := by
  constructor
  · intro unquote parse toDict errId f req kw ctx
    by_cases hm : req.method = "OPTIONS"
    · exact ⟨(match cookieSid unquote req with
              | some s => [Ev.setSid s] | none => []),
        by simp [flaskapi, hm, preambleEvents]⟩
    · exact ⟨((match cookieSid unquote req with
               | some s => [Ev.setSid s] | none => []) ++
        Ev.callHandler (flaskMergedKw parse req kw) ::
          (dispatchResult toDict errId (flaskMergedKw parse req kw)
            (f (flaskMergedKw parse req kw) (ctxAfterPreamble unquote req ctx))).2.2),
        by simp [flaskapi, hm, preambleEvents]⟩
  · exact ⟨resolver0, gHR, [("_session_id", "s")], by decide⟩
